import Mathlib

/-!
Verification of the durable task-queue core of the sanaa-gui-agent repository:
a shallow embedding in Lean 4 of the persistence layer (`persistence.py`),
the concurrency engine (`concurrency.py`), and the governance controller
(`governor.py`), together with theorems settling the specification claims.

Modelling conventions:
* UTC instants are natural numbers (seconds).  The source stores ISO-8601
  strings whose lexicographic order agrees with chronological order, so `≤`
  on `Nat` models the SQL comparisons.
* JSON payloads/results are opaque `String`s.
* The SQLite `tasks` table is a `List TaskRecord`; its PRIMARY KEY (`id`)
  and UNIQUE (`idempotency_key`) constraints are enforced by the insert
  model, which returns `Except.error` exactly when SQLite would raise an
  `IntegrityError` (the failed transaction leaves the table unchanged).
* `random.uniform(0, base_delay / 3)` is modelled by a jitter parameter
  constrained to the interval the source draws from.
* Floating-point percentages and delays are modelled over `ℚ`.
-/

namespace Sanaa

/-- Task status values used by `persistence.py` (stored as TEXT). -/
inductive Status where
  | queued
  | reserved
  | in_progress
  | retry_scheduled
  | succeeded
  | failed
deriving DecidableEq, Repr

/-- `TaskRecord` from `persistence.py`: the representation of a persisted task. -/
structure TaskRecord where
  id : String
  type : String
  payload : String
  status : Status
  attempts : Nat
  max_attempts : Nat
  priority : Int
  scheduled_for : Nat
  created_at : Nat
  updated_at : Nat
  idempotency_key : Option String
  last_error : Option String
  result : Option String
deriving DecidableEq, Repr

/-- The `SELECT * FROM tasks WHERE idempotency_key=? AND status='succeeded'`
query issued by `TaskStore.enqueue_task` (`fetchone`: first matching row;
the UNIQUE constraint on `idempotency_key` makes the row unique anyway). -/
def findSucceededByKey (store : List TaskRecord) (k : String) : Option TaskRecord :=
  store.find? (fun t =>
    decide (t.idempotency_key = some k) && decide (t.status = Status.succeeded))

/-- The `INSERT INTO tasks ...` of `TaskStore.enqueue_task`, together with the
schema constraints `id TEXT PRIMARY KEY` and `idempotency_key TEXT UNIQUE`
(`_ensure_schema`).  A constraint violation raises `sqlite3.IntegrityError`,
modelled as `Except.error`; the enclosing transaction then commits nothing,
so the table is unchanged. -/
def insertTask (store : List TaskRecord) (t : TaskRecord) :
    Except String (List TaskRecord) :=
  if store.any (fun u => decide (u.id = t.id)) then
    Except.error "UNIQUE constraint failed: tasks.id"
  else if t.idempotency_key.isSome
      && store.any (fun u => decide (u.idempotency_key = t.idempotency_key)) then
    Except.error "UNIQUE constraint failed: tasks.idempotency_key"
  else
    Except.ok (store ++ [t])

/-- `TaskStore.enqueue_task`: if `idempotency_key` matches a prior succeeded
task, return that record without inserting; otherwise insert a fresh row with
`status='queued'`, `attempts=0`, `created_at=updated_at=now`.  The `Option
TaskRecord` component is the Python return value (`Some` = deduplicated). -/
def enqueue_task (store : List TaskRecord) (now : Nat)
    (task_id task_type payload : String) (priority : Int)
    (scheduled_for : Nat) (max_attempts : Nat)
    (idempotency_key : Option String) :
    Except String (Option TaskRecord × List TaskRecord) :=
  let prior :=
    match idempotency_key with
    | some k => findSucceededByKey store k
    | none => none
  match prior with
  | some row => Except.ok (some row, store)
  | none =>
    (insertTask store
      { id := task_id
        type := task_type
        payload := payload
        status := Status.queued
        attempts := 0
        max_attempts := max_attempts
        priority := priority
        scheduled_for := scheduled_for
        created_at := now
        updated_at := now
        idempotency_key := idempotency_key
        last_error := none
        result := none }).map (fun s => (none, s))

/-- The table contents after an `enqueue_task` call: on an error the
transaction commits nothing, so the table is the original one. -/
def storeAfterEnqueue (store : List TaskRecord) (now : Nat)
    (task_id task_type payload : String) (priority : Int)
    (scheduled_for : Nat) (max_attempts : Nat)
    (idempotency_key : Option String) : List TaskRecord :=
  match enqueue_task store now task_id task_type payload priority
      scheduled_for max_attempts idempotency_key with
  | Except.ok p => p.2
  | Except.error _ => store

/-- Eligibility filter of `TaskStore.reserve_batch`:
`status IN ('queued', 'retry_scheduled') AND scheduled_for <= now`. -/
def eligible (now : Nat) (t : TaskRecord) : Bool :=
  (decide (t.status = Status.queued) || decide (t.status = Status.retry_scheduled))
    && decide (t.scheduled_for ≤ now)

/-- The `ORDER BY priority DESC, scheduled_for ASC` relation of
`TaskStore.reserve_batch`. -/
def reserveRel (a b : TaskRecord) : Prop :=
  b.priority < a.priority
    ∨ (a.priority = b.priority ∧ a.scheduled_for ≤ b.scheduled_for)

instance : DecidableRel reserveRel := fun a b => by
  unfold reserveRel; infer_instance

instance : IsTotal TaskRecord reserveRel where
  total a b := by
    rcases lt_trichotomy a.priority b.priority with h | h | h
    · exact Or.inr (Or.inl h)
    · rcases Nat.le_total a.scheduled_for b.scheduled_for with h2 | h2
      · exact Or.inl (Or.inr ⟨h, h2⟩)
      · exact Or.inr (Or.inr ⟨h.symm, h2⟩)
    · exact Or.inl (Or.inl h)

instance : IsTrans TaskRecord reserveRel where
  trans a b c hab hbc := by
    rcases hab with hab | ⟨hab, hab2⟩ <;> rcases hbc with hbc | ⟨hbc, hbc2⟩
    · exact Or.inl (hbc.trans hab)
    · exact Or.inl (hbc ▸ hab)
    · exact Or.inl (hab ▸ hbc)
    · exact Or.inr ⟨hab.trans hbc, hab2.trans hbc2⟩

/-- The snapshot returned for a task reserved at instant `now`:
`UPDATE tasks SET status='reserved', updated_at=? WHERE id=?` followed by the
re-read `SELECT * FROM tasks WHERE id=?`. -/
def reservedVersion (now : Nat) (t : TaskRecord) : TaskRecord :=
  { t with status := Status.reserved, updated_at := now }

/-- `TaskStore.reserve_batch`: select up to `limit` eligible task ids ordered
by `(priority DESC, scheduled_for ASC)`, flip each selected row to
`reserved` with `updated_at = now`, and return the re-read snapshots.
First component: the returned snapshots; second: the table afterwards. -/
def reserve_batch (store : List TaskRecord) (now : Nat) (limit : Nat) :
    List TaskRecord × List TaskRecord :=
  let chosen := (List.insertionSort reserveRel (store.filter (eligible now))).take limit
  let chosenIds := chosen.map TaskRecord.id
  (chosen.map (reservedVersion now),
   store.map (fun t =>
     if t.id ∈ chosenIds then reservedVersion now t else t))

/-- `TaskStore.mark_in_progress`:
`UPDATE tasks SET status='in_progress', attempts=attempts+1, updated_at=? WHERE id=?`. -/
def mark_in_progress (store : List TaskRecord) (now : Nat) (task_id : String) :
    List TaskRecord :=
  store.map (fun t =>
    if t.id = task_id then
      { t with status := Status.in_progress, attempts := t.attempts + 1,
               updated_at := now }
    else t)

/-- `TaskStore.complete_task`:
`UPDATE tasks SET status='succeeded', result=?, updated_at=? WHERE id=?`. -/
def complete_task (store : List TaskRecord) (now : Nat) (task_id : String)
    (result : String) : List TaskRecord :=
  store.map (fun t =>
    if t.id = task_id then
      { t with status := Status.succeeded, result := some result, updated_at := now }
    else t)

/-- `TaskStore.fail_task`:
`UPDATE tasks SET status='failed', last_error=?, updated_at=? WHERE id=?`. -/
def fail_task (store : List TaskRecord) (now : Nat) (task_id : String)
    (error : String) : List TaskRecord :=
  store.map (fun t =>
    if t.id = task_id then
      { t with status := Status.failed, last_error := some error, updated_at := now }
    else t)

/-- `TaskStore.schedule_retry`: `UPDATE tasks SET status='retry_scheduled',
scheduled_for=?, last_error=?, updated_at=? WHERE id=?`. -/
def schedule_retry (store : List TaskRecord) (now : Nat) (task_id : String)
    (scheduled_for : Nat) (error : String) : List TaskRecord :=
  store.map (fun t =>
    if t.id = task_id then
      { t with status := Status.retry_scheduled, scheduled_for := scheduled_for,
               last_error := some error, updated_at := now }
    else t)

/-- `TaskExecutor._execute_with_retry` from `concurrency.py`.  The source's
`while attempts < max_attempts` loop returns on every path of its body
(success, exhausted failure, or scheduled retry), so it runs at most one
iteration and is an `if`.  `policy_max` is `retry_policy.max_attempts`,
`outcome` the handler invocation's result (`Except.error` = the caught
exception, with its message), `retry_at` the computed `now + next_delay`. -/
def execute_with_retry (store : List TaskRecord) (record : TaskRecord)
    (policy_max : Nat) (outcome : Except String String) (now retry_at : Nat) :
    List TaskRecord :=
  let cap := min record.max_attempts policy_max
  if record.attempts < cap then
    let store1 := mark_in_progress store now record.id
    let attempts := record.attempts + 1
    match outcome with
    | Except.ok result => complete_task store1 now record.id result
    | Except.error exc =>
      if cap ≤ attempts then fail_task store1 now record.id exc
      else schedule_retry store1 now record.id retry_at exc
  else
    fail_task store now record.id "max_attempts_exceeded"

/-- `RetryPolicy.next_delay` from `concurrency.py`:
`base_delay * (2 ** max(0, attempt_number - 1)) + random.uniform(0, base_delay / 3)`.
The uniform draw is modelled by the `jitter` parameter; theorems constrain it
to the interval `[0, base_delay / 3]` the source draws from. -/
def next_delay (base_delay : ℚ) (attempt_number : Int) (jitter : ℚ) : ℚ :=
  base_delay * 2 ^ (max 0 (attempt_number - 1)).toNat + jitter

/-- `OperationsCounter` from `concurrency.py`: the `_operations` buffer of
`(timestamp, success, task_type)` observations. -/
structure OperationsCounter where
  operations : List (Nat × Bool × String)
deriving DecidableEq, Repr

/-- `OperationsCounter.snapshot(window)`: trim the buffer to entries with
`now - ts <= window`, return `(total, errors)` over the trimmed buffer
together with the trimmed counter. -/
def snapshot (c : OperationsCounter) (now window : Nat) :
    (Nat × Nat) × OperationsCounter :=
  let kept := c.operations.filter (fun e => decide (now - e.1 ≤ window))
  ((kept.length, (kept.filter (fun e => !e.2.1)).length), ⟨kept⟩)

/-- `OperationsCounter._record` (the append performed for
`record_operation`). -/
def record_operation (c : OperationsCounter) (ts : Nat) (success : Bool)
    (task_type : String) : OperationsCounter :=
  ⟨c.operations ++ [(ts, success, task_type)]⟩

/-- The per-type failure count of the histogram built by
`OperationsCounter.failing_types`: the number of buffered observations of
the given type with `success = False`. -/
def failCount (ops : List (Nat × Bool × String)) (t : String) : Nat :=
  (ops.filter (fun e => !e.2.1 && decide (e.2.2 = t))).length

/-- The key set of the `failing_types` dict, in insertion order of first
failure occurrence. -/
def failKeys (ops : List (Nat × Bool × String)) : List String :=
  ((ops.filter (fun e => !e.2.1)).map (fun e => e.2.2)).foldl
    (fun acc t => if t ∈ acc then acc else acc ++ [t]) []

/-- `OperationsCounter.failing_types`: the histogram `type → failure count`
over the current buffer (no trimming happens here; only `snapshot` trims). -/
def failing_types (c : OperationsCounter) : List (String × Nat) :=
  (failKeys c.operations).map (fun t => (t, failCount c.operations t))

/-! ### Executor concurrency-budget transition system

`TaskExecutor.run` / `_start_task` / `set_effective_max_concurrent` from
`concurrency.py`, abstracted to the counters the concurrency claims are
about.  One loop iteration computes `available = effective_max - inflight`
and reserves up to that many tasks (`reserve` step, guarded exactly by the
source's `available > 0` check and by `reserve_batch`'s `LIMIT`); the
reserved tasks are then inserted into `_inflight` one at a time (`start`
steps) across `await` points, so governance adjustments (`adjust` steps,
clamped by `set_effective_max_concurrent` to `[1, configured_max]`) and task
completions (`finish` steps, the `runner`'s `finally` pop) interleave
arbitrarily. -/

structure ExecState where
  configured_max : Nat
  effective_max : Nat
  inflight : Nat
  pending : Nat
deriving DecidableEq, Repr

inductive ExecStep : ExecState → ExecState → Prop where
  | reserve (s : ExecState) (k : Nat) (hp : s.pending = 0)
      (hk : s.inflight + k ≤ s.effective_max) :
      ExecStep s { s with pending := k }
  | start (s : ExecState) (h : 0 < s.pending) :
      ExecStep s { s with pending := s.pending - 1, inflight := s.inflight + 1 }
  | finish (s : ExecState) (h : 0 < s.inflight) :
      ExecStep s { s with inflight := s.inflight - 1 }
  | adjust (s : ExecState) (v : Nat) :
      ExecStep s { s with effective_max := max 1 (min s.configured_max v) }

/-- `TaskExecutor.__init__`: `_effective_max = _max_configured = max_concurrent`,
no tasks inflight. -/
def initExec (max_concurrent : Nat) : ExecState :=
  { configured_max := max_concurrent, effective_max := max_concurrent,
    inflight := 0, pending := 0 }

/-- The executor states reachable from a fresh `TaskExecutor`. -/
inductive ExecReach (max_concurrent : Nat) : ExecState → Prop where
  | init : ExecReach max_concurrent (initExec max_concurrent)
  | step {s t : ExecState} : ExecReach max_concurrent s → ExecStep s t →
      ExecReach max_concurrent t

/-- The executor state used to refute the unconditional
`inflight ≤ effective_max` invariant: two tasks running after governance
throttled `effective_max` from 2 down to 1. -/
def throttledExec : ExecState :=
  { configured_max := 2, effective_max := 1, inflight := 2, pending := 0 }

/-! ### The run loop's reaction to reservation errors

`TaskExecutor.run` wraps its `while not self._shutdown.is_set()` loop in
`try/.../finally` with **no** `except` clause: an exception raised by
`self.store.reserve_batch` (via `_reserve_tasks`) escapes the `while`, the
`finally` block drains the in-flight tasks and shuts the thread pool down,
and the exception re-raises out of `run`.  The model replays the sequence of
reservation outcomes the store would produce on successive loop iterations
(`Except.ok n` = a batch of `n` tasks, `Except.error e` = a raised store
error); the list ends where the shutdown signal would stop the loop. -/

structure LoopResult where
  reserve_calls : Nat
  raised : Option String
  drained : Bool
  pool_shutdown : Bool
deriving DecidableEq, Repr

def runTicks : List (Except String Nat) → LoopResult
  | [] => { reserve_calls := 0, raised := none, drained := true, pool_shutdown := true }
  | Except.ok _ :: rest =>
    let r := runTicks rest
    { r with reserve_calls := r.reserve_calls + 1 }
  | Except.error e :: _ =>
    { reserve_calls := 1, raised := some e, drained := true, pool_shutdown := true }

/-- `Except.isOk` specialised to reservation outcomes. -/
def tickOk : Except String Nat → Bool
  | Except.ok _ => true
  | Except.error _ => false

/-! ### Governance controller (`governor.py`) -/

/-- `PauseAfterErrorConfig` from `config.py`. -/
structure PauseAfterErrorConfig where
  threshold : Nat
  duration_s : Nat
deriving DecidableEq, Repr

/-- `GovernanceConfig` from `config.py`. -/
structure GovernanceConfig where
  cpu_high_pct : ℚ
  mem_high_pct : ℚ
  window_s : Nat
  pause_after_error_burst : PauseAfterErrorConfig
  human_review_after_pause_bursts : Nat
deriving DecidableEq, Repr

/-- `EscalationConfig` from `config.py`. -/
structure EscalationConfig where
  enabled : Bool
  webhook_url : Option String
  email_to : Option String
deriving DecidableEq, Repr

/-- `Sample` from `governor.py`. -/
structure Sample where
  ts : Nat
  cpu : ℚ
  mem : ℚ
  errors : Nat
  ops : Nat
deriving DecidableEq, Repr

/-- The escalation webhook payload `GovernanceController._escalate` intends
to build (`last_50_log_lines`, read back from the metrics log file, is not
modelled). -/
structure EscPayload where
  ts : Nat
  reason : String
  current_max_concurrent : Nat
  cpu_avg : ℚ
  mem_avg : ℚ
  errors : Nat
  ops : Nat
  top_error_types : List (String × Nat)
deriving DecidableEq, Repr

/-- State of `GovernanceController` together with the executor fields it
drives (`effective_max`/`configured_max`/the executor's `_pause_until`), the
shared `OperationsCounter`, the webhook POSTs performed so far (none is ever
delivered, see `escalate`), and `ticks`, an observation counter of completed
`_sample_once` iterations of `run`.  `escalation_enabled` is the source's
`self.escalation.enabled`, a field of the frozen `EscalationConfig`
dataclass. -/
structure GovState where
  samples : List Sample
  pause_events : List Nat
  cooldown_until : Option Nat
  healthy_since : Option Nat
  pause_until : Option Nat
  escalation_enabled : Bool
  counter : OperationsCounter
  effective_max : Nat
  configured_max : Nat
  exec_pause_until : Option Nat
  posts : List EscPayload
  ticks : Nat
deriving DecidableEq, Repr

/-- Python truthiness of an optional timestamp (`None` and `0.0` are falsy). -/
def truthy : Option Nat → Bool
  | none => false
  | some p => p != 0

/-- The guard `self._pause_until and now_ts < self._pause_until`. -/
def pauseGuard (pause_until : Option Nat) (now : Nat) : Bool :=
  truthy pause_until && decide (now < pause_until.getD 0)

/-- Rolling average CPU over the sample deque:
`sum(s.cpu for s in self._samples) / max(1, len(self._samples))`. -/
def cpuAvg (samples : List Sample) : ℚ :=
  (samples.map Sample.cpu).sum / (max 1 samples.length : Nat)

/-- Rolling average memory over the sample deque. -/
def memAvg (samples : List Sample) : ℚ :=
  (samples.map Sample.mem).sum / (max 1 samples.length : Nat)

/-- `TaskExecutor.set_effective_max_concurrent`, acting on the executor
fields carried in `GovState`: clamp to `[1, configured_max]`, no-op when the
clamped value equals the current one. -/
def set_effective_max_concurrent (s : GovState) (v : Nat) : GovState :=
  let value := max 1 (min s.configured_max v)
  if value = s.effective_max then s else { s with effective_max := value }

/-- `GovernanceController._trigger_pause`: skip if a pause is still active;
otherwise set `_pause_until = now + duration`, append a pause event, and call
`executor.pause_for(duration)` (which sets the executor's own
`_pause_until = now + duration`). -/
def trigger_pause (cfg : GovernanceConfig) (s : GovState) (now : Nat) : GovState :=
  if pauseGuard s.pause_until now then s
  else
    { s with pause_until := some (now + cfg.pause_after_error_burst.duration_s),
             pause_events := s.pause_events ++ [now],
             exec_pause_until := some (now + cfg.pause_after_error_burst.duration_s) }

/-- `GovernanceController._trigger_throttle`: skip while in cooldown;
otherwise set `effective_max` to `max(1, effective_max - 1)` (through the
executor's clamping setter) and start a cooldown of `window_s`. -/
def trigger_throttle (cfg : GovernanceConfig) (s : GovState) (now : Nat) : GovState :=
  if pauseGuard s.cooldown_until now then s
  else
    let s1 := set_effective_max_concurrent s (max 1 (s.effective_max - 1))
    { s1 with cooldown_until := some (now + cfg.window_s) }

/-- `GovernanceController._attempt_recover`: healthy iff the rolling averages
are strictly below both thresholds (vacuously for an empty deque) and no
pause is active; require a full `window_s` of continuous health before
raising `effective_max` by one (capped at `configured_max`) and, if the pause
window has elapsed, resuming the executor. -/
def attempt_recover (cfg : GovernanceConfig) (s : GovState) (now : Nat) : GovState :=
  let unhealthyAvg := !s.samples.isEmpty
    && (decide (cfg.cpu_high_pct ≤ cpuAvg s.samples)
        || decide (cfg.mem_high_pct ≤ memAvg s.samples))
  if unhealthyAvg || pauseGuard s.pause_until now then
    { s with healthy_since := none }
  else
    match s.healthy_since with
    | none => { s with healthy_since := some now }
    | some h =>
      if cfg.window_s ≤ now - h then
        let s1 := if s.effective_max < s.configured_max then
            set_effective_max_concurrent s (s.effective_max + 1)
          else s
        if truthy s1.pause_until && decide (s1.pause_until.getD 0 ≤ now) then
          { s1 with exec_pause_until := none, pause_until := none }
        else s1
      else s

/-- The escalation payload `GovernanceController._escalate` builds at
`governor.py` lines 220-232 (timestamp, reason, current `effective_max`,
window averages and totals, failing-type histogram from the shared counter).
That construction is unreachable: the preceding
`self.escalation.enabled = False` raises first (see `escalate`). -/
def escPayload (s : GovState) (now : Nat) : EscPayload :=
  { ts := now, reason := "repeated_pause",
    current_max_concurrent := s.effective_max,
    cpu_avg := cpuAvg s.samples, mem_avg := memAvg s.samples,
    errors := (s.samples.map Sample.errors).sum,
    ops := (s.samples.map Sample.ops).sum,
    top_error_types := failing_types s.counter }

/-- The exception raised by `self.escalation.enabled = False` in
`GovernanceController._escalate`: `EscalationConfig` is declared
`@dataclass(frozen=True)` in `config.py`, so assigning to its field raises
`dataclasses.FrozenInstanceError`. -/
def frozenInstanceError : String :=
  "FrozenInstanceError: cannot assign to field 'enabled'"

/-- `GovernanceController._escalate`: return unchanged if escalation is
disabled; otherwise the source immediately executes
`self.escalation.enabled = False`, which raises `FrozenInstanceError`
because `EscalationConfig` is a frozen dataclass — *before* the payload is
built, logged, or POSTed (those lines, modelled by `escPayload`, are dead
code on this path).  No field of the state is changed by the failed
assignment. -/
def escalate (s : GovState) : Except String GovState :=
  if !s.escalation_enabled then Except.ok s
  else Except.error frozenInstanceError

/-- The rule cascade of `GovernanceController._evaluate` (first match wins):
pause on an error burst, else throttle on high average CPU or memory, else
attempt recovery. -/
def evalBranch (cfg : GovernanceConfig) (s : GovState) (x : Sample) : GovState :=
  if cfg.pause_after_error_burst.threshold ≤ x.errors then
    trigger_pause cfg s x.ts
  else if cfg.cpu_high_pct ≤ cpuAvg s.samples ∨ cfg.mem_high_pct ≤ memAvg s.samples then
    trigger_throttle cfg s x.ts
  else
    attempt_recover cfg s x.ts

/-- `GovernanceController._evaluate`: the rule cascade followed by the
escalation check (`escalation.enabled` and enough recorded pause events).
When the check fires, `_escalate` raises `FrozenInstanceError` and the
exception propagates out of `_evaluate` (no handler anywhere above). -/
def evaluate (cfg : GovernanceConfig) (s : GovState) (x : Sample) :
    Except String GovState :=
  let m := evalBranch cfg s x
  if m.escalation_enabled
      && decide (cfg.human_review_after_pause_bursts ≤ m.pause_events.length) then
    escalate m
  else Except.ok m

/-- `GovernanceController._trim_samples`: pop samples older than `window_s`
and pause events older than 1800 seconds (the rolling 30-minute window) off
the front of their deques. -/
def trim_samples (cfg : GovernanceConfig) (s : GovState) (now : Nat) : GovState :=
  { s with samples := s.samples.dropWhile (fun sm => decide (cfg.window_s < now - sm.ts)),
           pause_events := s.pause_events.dropWhile (fun p => decide (1800 < now - p)) }

/-- The `Sample` built by `GovernanceController._sample_once`: psutil
readings plus `(ops, errors) = counter.snapshot(window_s)`. -/
def sampleOf (cfg : GovernanceConfig) (s : GovState) (now : Nat)
    (cpu mem : ℚ) : Sample :=
  { ts := now, cpu := cpu, mem := mem,
    errors := (snapshot s.counter now cfg.window_s).1.2,
    ops := (snapshot s.counter now cfg.window_s).1.1 }

/-- The controller state right before `_evaluate` runs inside
`_sample_once`: the counter trimmed by its snapshot, the new sample appended
to the deque, and `_trim_samples` applied. -/
def preEvalState (cfg : GovernanceConfig) (s : GovState) (now : Nat)
    (x : Sample) : GovState :=
  trim_samples cfg
    { s with counter := (snapshot s.counter now cfg.window_s).2,
             samples := s.samples ++ [x] } now

/-- `GovernanceController._sample_once`: take a counter snapshot over
`window_s` (which trims the shared counter), append the new sample, trim the
deques, and evaluate; an exception raised by `_evaluate` propagates.  The
metrics-store insert and the JSONL log write are file/database I/O with no
bearing on control state and are not modelled.  `cpu`/`mem` are the psutil
readings of this tick. -/
def sample_once (cfg : GovernanceConfig) (s : GovState) (now : Nat)
    (cpu mem : ℚ) : Except String GovState :=
  let x := sampleOf cfg s now cpu mem
  (evaluate cfg (preEvalState cfg s now x) x).map
    (fun s3 => { s3 with ticks := s.ticks + 1 })

/-- `GovernanceController.run`: one `_sample_once` per tick until shutdown;
the tick list carries each tick's time and psutil readings.  `run` has no
exception handler, so an error escaping `_sample_once` terminates the
sampling loop and the remaining ticks are never processed. -/
def runGov (cfg : GovernanceConfig) (s : GovState) :
    List (Nat × ℚ × ℚ) → Except String GovState
  | [] => Except.ok s
  | (now, cpu, mem) :: rest =>
    match sample_once cfg s now cpu mem with
    | Except.ok s2 => runGov cfg s2 rest
    | Except.error e => Except.error e

/-! ### Concrete fixtures used by witness theorems -/

/-- A succeeded task holding idempotency key `k1`. -/
def wPrior : TaskRecord :=
  { id := "t1", type := "demo", payload := "{}", status := Status.succeeded
    attempts := 1, max_attempts := 3, priority := 0, scheduled_for := 0
    created_at := 0, updated_at := 5, idempotency_key := some "k1"
    last_error := none, result := some "{}" }

/-- A still-queued task holding idempotency key `k1`. -/
def wQueued : TaskRecord :=
  { id := "t1", type := "demo", payload := "{}", status := Status.queued
    attempts := 0, max_attempts := 3, priority := 0, scheduled_for := 0
    created_at := 0, updated_at := 0, idempotency_key := some "k1"
    last_error := none, result := none }

/-- An eligible queued task of priority 1. -/
def wLow : TaskRecord :=
  { id := "a", type := "demo", payload := "{}", status := Status.queued
    attempts := 0, max_attempts := 3, priority := 1, scheduled_for := 4
    created_at := 0, updated_at := 0, idempotency_key := none
    last_error := none, result := none }

/-- An eligible retry-scheduled task of priority 2. -/
def wHigh : TaskRecord :=
  { id := "b", type := "demo", payload := "{}", status := Status.retry_scheduled
    attempts := 1, max_attempts := 3, priority := 2, scheduled_for := 5
    created_at := 0, updated_at := 0, idempotency_key := none
    last_error := some "boom", result := none }

/-- An already-succeeded task (not eligible for reservation). -/
def wDone : TaskRecord :=
  { id := "c", type := "demo", payload := "{}", status := Status.succeeded
    attempts := 1, max_attempts := 3, priority := 9, scheduled_for := 0
    created_at := 0, updated_at := 0, idempotency_key := none
    last_error := none, result := some "{}" }

/-- A reserved task snapshot about to be executed (attempts 0, cap 2). -/
def wRun : TaskRecord :=
  { id := "r", type := "demo", payload := "{}", status := Status.reserved
    attempts := 0, max_attempts := 2, priority := 0, scheduled_for := 0
    created_at := 0, updated_at := 4, idempotency_key := none
    last_error := none, result := none }

/-- `wRun` after one successful attempt at instant 5. -/
def wRunDone : TaskRecord :=
  { wRun with status := Status.succeeded, attempts := 1, updated_at := 5,
              result := some "{}" }

/-- A small governance configuration. -/
def wCfg : GovernanceConfig :=
  { cpu_high_pct := 50, mem_high_pct := 50, window_s := 5,
    pause_after_error_burst := { threshold := 2, duration_s := 10 },
    human_review_after_pause_bursts := 1 }

/-- A counter buffer holding one failure. -/
def wCounter : OperationsCounter := ⟨[(3, false, "demo")]⟩

/-- A fresh governance/executor state (no samples, escalation armed). -/
def wGov : GovState :=
  { samples := [], pause_events := [], cooldown_until := none,
    healthy_since := none, pause_until := none, escalation_enabled := true,
    counter := wCounter, effective_max := 3, configured_max := 3,
    exec_pause_until := none, posts := [], ticks := 0 }

/-- `wGov` with one high-CPU sample in the window. -/
def wHotGov : GovState := { wGov with samples := [⟨1, 90, 10, 0, 1⟩] }

/-- A counter buffer holding an error burst of two recent failures. -/
def wBurstCounter : OperationsCounter :=
  ⟨[(3, false, "demo"), (3, false, "whatsapp")]⟩

/-- `wGov` with one recorded pause event (enough for `wCfg`'s review bar)
and an error burst in the shared counter. -/
def wEscGov : GovState :=
  { wGov with pause_events := [2], counter := wBurstCounter }

/-- A sample carrying an error burst (2 errors at instant 4). -/
def wErrSample : Sample := ⟨4, 10, 10, 2, 5⟩

/-- A calm sample (no errors, low readings, instant 4). -/
def wCalmSample : Sample := ⟨4, 10, 10, 0, 5⟩

/-- A governance tick of telemetry readings after the crashing one. -/
def wTicks : List (Nat × ℚ × ℚ) := [(6, 10, 10)]

/-! ### Theorems settling the claims -/

/-- C1: enqueue with the idempotency key of a prior succeeded task returns
that prior task (hence its id), with `succeeded` status, and the stored set
of task records is unchanged. -/
theorem enqueue_dedup_returns_prior_and_inserts_nothing
    (store : List TaskRecord) (now : Nat)
    (task_id task_type payload : String) (priority : Int)
    (scheduled_for : Nat) (max_attempts : Nat) (k : String) (t : TaskRecord)
    (h : findSucceededByKey store k = some t) :
    enqueue_task store now task_id task_type payload priority
        scheduled_for max_attempts (some k) = Except.ok (some t, store)
      ∧ t.status = Status.succeeded ∧ t.idempotency_key = some k := by
  have hp := List.find?_some h
  simp only [Bool.and_eq_true, decide_eq_true_eq] at hp
  refine ⟨?_, hp.2, hp.1⟩
  simp [enqueue_task, h]

/-- Witness for C1 at a concrete store. -/
theorem enqueue_dedup_witness :
    enqueue_task [wPrior] 9 "t2" "demo" "{}" 0 9 3 (some "k1")
        = Except.ok (some wPrior, [wPrior])
      ∧ wPrior.status = Status.succeeded ∧ wPrior.idempotency_key = some "k1" :=
  enqueue_dedup_returns_prior_and_inserts_nothing [wPrior] 9 "t2" "demo" "{}" 0 9 3
    "k1" wPrior (by decide)

/-- C10: enqueue with the idempotency key of an existing task whose status is
not `succeeded` hits the UNIQUE constraint on `idempotency_key`: the call
raises and the stored set of task records is unchanged. -/
theorem enqueue_duplicate_key_not_succeeded_raises
    (store : List TaskRecord) (now : Nat)
    (task_id task_type payload : String) (priority : Int)
    (scheduled_for : Nat) (max_attempts : Nat) (k : String)
    (hex : ∃ u ∈ store, u.idempotency_key = some k)
    (hns : ∀ u ∈ store, u.idempotency_key = some k → u.status ≠ Status.succeeded)
    (hid : ∀ u ∈ store, u.id ≠ task_id) :
    enqueue_task store now task_id task_type payload priority
        scheduled_for max_attempts (some k)
      = Except.error "UNIQUE constraint failed: tasks.idempotency_key"
    ∧ storeAfterEnqueue store now task_id task_type payload priority
        scheduled_for max_attempts (some k) = store := by
  have hfind : findSucceededByKey store k = none := by
    rw [findSucceededByKey, List.find?_eq_none]
    intro u hu
    simp only [Bool.and_eq_true, decide_eq_true_eq, not_and]
    intro hkey
    exact hns u hu hkey
  have hidany : store.any (fun u => decide (u.id = task_id)) = false := by
    simp only [List.any_eq_false, decide_eq_true_eq]
    exact hid
  have hkeyany :
      store.any (fun u => decide (u.idempotency_key = some k)) = true := by
    obtain ⟨u, hu, hk⟩ := hex
    simp only [List.any_eq_true, decide_eq_true_eq]
    exact ⟨u, hu, hk⟩
  have henq :
      enqueue_task store now task_id task_type payload priority
          scheduled_for max_attempts (some k)
        = Except.error "UNIQUE constraint failed: tasks.idempotency_key" := by
    simp [enqueue_task, hfind, insertTask, hidany, hkeyany, Except.map]
  exact ⟨henq, by simp [storeAfterEnqueue, henq]⟩

/-- Witness for C10 at a concrete store. -/
theorem enqueue_duplicate_key_witness :
    enqueue_task [wQueued] 9 "t2" "demo" "{}" 0 9 3 (some "k1")
        = Except.error "UNIQUE constraint failed: tasks.idempotency_key"
      ∧ storeAfterEnqueue [wQueued] 9 "t2" "demo" "{}" 0 9 3 (some "k1")
        = [wQueued] :=
  enqueue_duplicate_key_not_succeeded_raises [wQueued] 9 "t2" "demo" "{}" 0 9 3 "k1"
    ⟨wQueued, List.mem_singleton_self _, rfl⟩ (by decide) (by decide)

/-- C2: `reserve_batch limit` returns at most `limit` snapshots; each returned
snapshot is the reserved version of a task that was eligible at call time;
the returned list is ordered by `(priority DESC, scheduled_for ASC)`; each
returned snapshot carries `status = reserved` and `updated_at = now`; and any
stored task whose id is not among the returned ids is left unchanged in the
table. -/
theorem reserve_batch_contract (store : List TaskRecord) (now limit : Nat) :
    (reserve_batch store now limit).1.length ≤ limit
    ∧ (∀ r ∈ (reserve_batch store now limit).1,
        ∃ t ∈ store, eligible now t = true ∧ r = reservedVersion now t)
    ∧ List.Pairwise reserveRel (reserve_batch store now limit).1
    ∧ (∀ r ∈ (reserve_batch store now limit).1,
        r.status = Status.reserved ∧ r.updated_at = now)
    ∧ (∀ t ∈ store, (∀ r ∈ (reserve_batch store now limit).1, r.id ≠ t.id) →
        t ∈ (reserve_batch store now limit).2) := by
  refine ⟨?_, ?_, ?_, ?_, ?_⟩
  · simp only [reserve_batch, List.length_map]
    exact List.length_take_le _ _
  · intro r hr
    simp only [reserve_batch, List.mem_map] at hr
    obtain ⟨c, hc, rfl⟩ := hr
    have hc2 : c ∈ List.insertionSort reserveRel (store.filter (eligible now)) :=
      List.mem_of_mem_take hc
    have hc3 : c ∈ store.filter (eligible now) :=
      (List.perm_insertionSort reserveRel _).mem_iff.mp hc2
    rw [List.mem_filter] at hc3
    exact ⟨c, hc3.1, hc3.2, rfl⟩
  · have hsorted : List.Pairwise reserveRel
        ((List.insertionSort reserveRel (store.filter (eligible now))).take limit) :=
      (List.sorted_insertionSort reserveRel _).sublist (List.take_sublist _ _)
    simp only [reserve_batch]
    rw [List.pairwise_map]
    refine hsorted.imp ?_
    intro a b hab
    rcases hab with h | ⟨h1, h2⟩
    · exact Or.inl h
    · exact Or.inr ⟨h1, h2⟩
  · intro r hr
    simp only [reserve_batch, List.mem_map] at hr
    obtain ⟨c, _, rfl⟩ := hr
    exact ⟨rfl, rfl⟩
  · intro t ht hnone
    have hmem : t.id ∉ ((List.insertionSort reserveRel
        (store.filter (eligible now))).take limit).map TaskRecord.id := by
      intro hmem
      rw [List.mem_map] at hmem
      obtain ⟨c, hc, hcid⟩ := hmem
      exact hnone (reservedVersion now c)
        (by simpa only [reserve_batch, List.mem_map] using ⟨c, hc, rfl⟩) hcid
    rw [List.mem_map] at hmem
    simp only [reserve_batch, List.mem_map]
    exact ⟨t, ht, by rw [if_neg hmem]⟩

/-- Witness for C2 at a concrete store (limit 1, the priority-2 task wins;
the succeeded task is untouched). -/
theorem reserve_batch_witness :
    (∃ t ∈ [wLow, wHigh, wDone], eligible 6 t = true
      ∧ reservedVersion 6 wHigh = reservedVersion 6 t)
    ∧ wDone ∈ (reserve_batch [wLow, wHigh, wDone] 6 1).2 :=
  ⟨(reserve_batch_contract [wLow, wHigh, wDone] 6 1).2.1
      (reservedVersion 6 wHigh) (by decide),
   (reserve_batch_contract [wLow, wHigh, wDone] 6 1).2.2.2.2 wDone
      (by decide) (by decide)⟩

/-- C3: when `_execute_with_retry` drives a task to a terminal status, the
stored `attempts` is at most `min(task.max_attempts, policy.max_attempts)`.
`hsnap` says the snapshot the executor holds is accurate for the task's rows,
`hinit` that the bound held on entry (attempts start at 0 and each earlier
retry was only scheduled from `attempts < cap`). -/
theorem execute_with_retry_attempts_bounded
    (store : List TaskRecord) (record : TaskRecord) (policy_max : Nat)
    (outcome : Except String String) (now retry_at : Nat)
    (hsnap : ∀ t ∈ store, t.id = record.id → t.attempts = record.attempts)
    (hinit : record.attempts ≤ min record.max_attempts policy_max) :
    ∀ u ∈ execute_with_retry store record policy_max outcome now retry_at,
      u.id = record.id →
      (u.status = Status.succeeded ∨ u.status = Status.failed) →
      u.attempts ≤ min record.max_attempts policy_max := by
  intro u hu hid _
  by_cases hlt : record.attempts < min record.max_attempts policy_max
  · cases outcome with
    | ok result =>
      simp only [execute_with_retry, if_pos hlt, complete_task, mark_in_progress,
        List.map_map, List.mem_map, Function.comp] at hu
      obtain ⟨t, ht, hgu⟩ := hu
      by_cases hteq : t.id = record.id
      · rw [← hgu]
        simp only [if_pos hteq]
        rw [hsnap t ht hteq]
        omega
      · rw [← hgu] at hid
        simp only [if_neg hteq] at hid
        exact absurd hid hteq
    | error exc =>
      by_cases hcap : min record.max_attempts policy_max ≤ record.attempts + 1
      · simp only [execute_with_retry, if_pos hlt, if_pos hcap, fail_task,
          mark_in_progress, List.map_map, List.mem_map, Function.comp] at hu
        obtain ⟨t, ht, hgu⟩ := hu
        by_cases hteq : t.id = record.id
        · rw [← hgu]
          simp only [if_pos hteq]
          rw [hsnap t ht hteq]
          omega
        · rw [← hgu] at hid
          simp only [if_neg hteq] at hid
          exact absurd hid hteq
      · simp only [execute_with_retry, if_pos hlt, if_neg hcap, schedule_retry,
          mark_in_progress, List.map_map, List.mem_map, Function.comp] at hu
        obtain ⟨t, ht, hgu⟩ := hu
        by_cases hteq : t.id = record.id
        · rw [← hgu]
          simp only [if_pos hteq]
          rw [hsnap t ht hteq]
          omega
        · rw [← hgu] at hid
          simp only [if_neg hteq] at hid
          exact absurd hid hteq
  · simp only [execute_with_retry, if_neg hlt, fail_task, List.mem_map] at hu
    obtain ⟨t, ht, hgu⟩ := hu
    by_cases hteq : t.id = record.id
    · rw [← hgu]
      simp only [if_pos hteq]
      rw [hsnap t ht hteq]
      exact hinit
    · rw [← hgu] at hid
      simp only [if_neg hteq] at hid
      exact absurd hid hteq

/-- Witness for C3: a fresh snapshot succeeding on its first attempt. -/
theorem execute_with_retry_witness :
    wRunDone.attempts ≤ min wRun.max_attempts 3 :=
  execute_with_retry_attempts_bounded [wRun] wRun 3 (Except.ok "{}") 5 9
    (by decide) (by decide) wRunDone (by decide) (by decide) (Or.inl (by decide))

/-- C4 counterexample: the state with two tasks inflight after governance
throttles `effective_max` from 2 to 1 is reachable, and there
`inflight > effective_max`.  Nothing in `set_effective_max_concurrent` or
`_trigger_throttle` cancels running tasks, so lowering the cap does not
restore the claimed invariant. -/
theorem exec_inflight_exceeds_effective_max :
    ExecReach 2 throttledExec
      ∧ throttledExec.effective_max < throttledExec.inflight := by
  constructor
  · have h1 : ExecReach 2
        { configured_max := 2, effective_max := 2, inflight := 0, pending := 2 } :=
      ExecReach.step ExecReach.init (ExecStep.reserve (initExec 2) 2 rfl (by decide))
    have h2 : ExecReach 2
        { configured_max := 2, effective_max := 2, inflight := 1, pending := 1 } :=
      ExecReach.step h1 (ExecStep.start _ (by decide))
    have h3 : ExecReach 2
        { configured_max := 2, effective_max := 2, inflight := 2, pending := 0 } :=
      ExecReach.step h2 (ExecStep.start _ (by decide))
    exact ExecReach.step h3 (ExecStep.adjust _ 1)
  · decide

/-- C4 amended: in every reachable executor state, `effective_max` stays in
`[1, configured_max]` and the tasks inflight (plus those reserved and about
to start) never exceed `configured_max`; batches are only reserved while
`inflight + batch ≤ effective_max` (the `reserve` guard), but after
governance lowers `effective_max` below the current `inflight`, the excess
drains only as tasks finish. -/
theorem exec_inflight_bounded_by_configured_max
    (c : Nat) (s : ExecState) (hc : 1 ≤ c) (hreach : ExecReach c s) :
    s.configured_max = c ∧ 1 ≤ s.effective_max ∧ s.effective_max ≤ c
      ∧ s.inflight + s.pending ≤ c := by
  induction hreach with
  | init => exact ⟨rfl, hc, le_refl c, Nat.zero_le c⟩
  | step _ hstep ih =>
    obtain ⟨ihc, ih1, ihe, ihs⟩ := ih
    cases hstep with
    | reserve k hp hk =>
      refine ⟨ihc, ih1, ihe, ?_⟩
      simp only
      omega
    | start h =>
      refine ⟨ihc, ih1, ihe, ?_⟩
      simp only
      omega
    | finish h =>
      refine ⟨ihc, ih1, ihe, ?_⟩
      simp only
      omega
    | adjust v =>
      refine ⟨ihc, ?_, ?_, ihs⟩ <;> simp only <;> omega

/-- Witness for the amended C4 at the freshly constructed executor. -/
theorem exec_inflight_bounded_witness :
    (initExec 2).configured_max = 2 ∧ 1 ≤ (initExec 2).effective_max
      ∧ (initExec 2).effective_max ≤ 2
      ∧ (initExec 2).inflight + (initExec 2).pending ≤ 2 :=
  exec_inflight_bounded_by_configured_max 2 (initExec 2) (by decide) ExecReach.init

/-- C6 counterexample: with a store error on the first reservation and
another tick available, the run loop makes no further reservation call: the
error re-raises out of `run` instead of being retried on the next tick. -/
theorem run_loop_reserve_error_counterexample :
    (runTicks [Except.error "database is locked", Except.ok 0]).raised
        = some "database is locked"
    ∧ (runTicks [Except.error "database is locked", Except.ok 0]).reserve_calls = 1
    ∧ ¬ (runTicks [Except.error "database is locked", Except.ok 0]).reserve_calls
        = ([Except.error "database is locked", Except.ok 0] : List (Except String Nat)).length := by
  decide

/-- C6 amended: a store error raised by `reserve_batch` terminates the run
loop.  Error-free tick sequences are processed in full; at the first
erroring tick the loop stops (exactly that many reservation calls are made),
the `finally` block drains in-flight tasks and shuts the worker pool down,
and the error re-raises out of `run`. -/
theorem run_loop_stops_at_reserve_error (ticks : List (Except String Nat)) :
    ((∀ t ∈ ticks, tickOk t = true) →
      (runTicks ticks).reserve_calls = ticks.length ∧ (runTicks ticks).raised = none)
    ∧ (∀ pre e post, ticks = pre ++ Except.error e :: post →
        (∀ t ∈ pre, tickOk t = true) →
        (runTicks ticks).reserve_calls = pre.length + 1
          ∧ (runTicks ticks).raised = some e)
    ∧ (runTicks ticks).drained = true ∧ (runTicks ticks).pool_shutdown = true := by
  induction ticks with
  | nil =>
    refine ⟨fun _ => ⟨rfl, rfl⟩, ?_, rfl, rfl⟩
    intro pre e post hsplit _
    exact absurd hsplit (by simp)
  | cons head rest ih =>
    cases head with
    | ok n =>
      refine ⟨?_, ?_, ?_, ?_⟩
      · intro hall
        have hrest := (ih.1 (fun t ht => hall t (List.mem_cons_of_mem _ ht)))
        simp only [runTicks, List.length_cons]
        exact ⟨by rw [hrest.1], hrest.2⟩
      · intro pre e post hsplit hpre
        cases pre with
        | nil =>
          simp only [List.nil_append, List.cons.injEq] at hsplit
          exact absurd hsplit.1 (by simp)
        | cons p pre2 =>
          simp only [List.cons_append, List.cons.injEq] at hsplit
          obtain ⟨rfl, hrest⟩ := hsplit
          have hr := ih.2.1 pre2 e post hrest
            (fun t ht => hpre t (List.mem_cons_of_mem _ ht))
          simp only [runTicks, List.length_cons]
          exact ⟨by rw [hr.1], hr.2⟩
      · simp only [runTicks]
        exact ih.2.2.1
      · simp only [runTicks]
        exact ih.2.2.2
    | error e0 =>
      refine ⟨?_, ?_, rfl, rfl⟩
      · intro hall
        have := hall (Except.error e0) (List.mem_cons_self _ _)
        simp [tickOk] at this
      · intro pre e post hsplit hpre
        cases pre with
        | nil =>
          simp only [List.nil_append, List.cons.injEq] at hsplit
          obtain ⟨he, _⟩ := hsplit
          cases he
          exact ⟨rfl, rfl⟩
        | cons p pre2 =>
          simp only [List.cons_append, List.cons.injEq] at hsplit
          obtain ⟨rfl, _⟩ := hsplit
          have := hpre (Except.error e0) (List.mem_cons_self _ _)
          simp [tickOk] at this

/-- Witness for the amended C6: one successful tick, then a store error. -/
theorem run_loop_stops_witness :
    (runTicks [Except.ok 1, Except.error "db", Except.ok 2]).reserve_calls
        = ([Except.ok 1] : List (Except String Nat)).length + 1
    ∧ (runTicks [Except.ok 1, Except.error "db", Except.ok 2]).raised = some "db" :=
  (run_loop_stops_at_reserve_error [Except.ok 1, Except.error "db", Except.ok 2]).2.1
    [Except.ok 1] "db" [Except.ok 2] rfl (by decide)

/-- C8: with the jitter in the interval `random.uniform(0, base_delay / 3)`
draws from, `next_delay n` equals `base_delay * 2 ^ max(0, n - 1)` plus the
jitter, and hence lies between that exponential term and the same term plus
`base_delay / 3`. -/
theorem next_delay_exponential_with_jitter (base_delay : ℚ) (n : Int) (j : ℚ)
    (h0 : 0 ≤ j) (h1 : j ≤ base_delay / 3) :
    next_delay base_delay n j = base_delay * 2 ^ (max 0 (n - 1)).toNat + j
    ∧ base_delay * 2 ^ (max 0 (n - 1)).toNat ≤ next_delay base_delay n j
    ∧ next_delay base_delay n j
        ≤ base_delay * 2 ^ (max 0 (n - 1)).toNat + base_delay / 3 := by
  refine ⟨rfl, ?_, ?_⟩ <;> unfold next_delay <;> linarith

/-- Witness for C8 at `base_delay = 3`, attempt 2, jitter 1. -/
theorem next_delay_witness :
    next_delay 3 2 1 = 3 * 2 ^ (max 0 (2 - 1 : Int)).toNat + 1
    ∧ 3 * 2 ^ (max 0 (2 - 1 : Int)).toNat ≤ next_delay 3 2 1
    ∧ next_delay 3 2 1 ≤ 3 * 2 ^ (max 0 (2 - 1 : Int)).toNat + 3 / 3 :=
  next_delay_exponential_with_jitter 3 2 1 (by norm_num) (by norm_num)

/-- C9: after a `snapshot` trim at `now` over `window`, every retained
observation satisfies `now - ts ≤ window`; consequently the `failing_types`
count for any task type equals the number of failures of that type observed
within the window, and every histogram entry is such a count. -/
theorem failing_types_counts_within_window
    (c : OperationsCounter) (now window : Nat) (t : String) :
    (∀ e ∈ ((snapshot c now window).2).operations, now - e.1 ≤ window)
    ∧ failCount ((snapshot c now window).2).operations t
        = (c.operations.filter (fun e =>
            decide (now - e.1 ≤ window) && (!e.2.1 && decide (e.2.2 = t)))).length
    ∧ (∀ p ∈ failing_types (snapshot c now window).2,
        p.2 = failCount ((snapshot c now window).2).operations p.1) := by
  refine ⟨?_, ?_, ?_⟩
  · intro e he
    simp only [snapshot, List.mem_filter, decide_eq_true_eq] at he
    exact he.2
  · simp only [snapshot, failCount, List.filter_filter]
    exact congrArg List.length (List.filter_congr (fun a _ => Bool.and_comm _ _))
  · intro p hp
    simp only [failing_types, List.mem_map] at hp
    obtain ⟨ty, _, rfl⟩ := hp
    rfl

/-- Witness for C9: of two failures of type `y`, only the one inside the
5-second window survives the trim and is counted. -/
theorem failing_types_witness :
    10 - ((8, false, "y") : Nat × Bool × String).1 ≤ 5
    ∧ failCount ((snapshot ⟨[(0, false, "y"), (8, false, "y")]⟩ 10 5).2).operations "y"
        = (([(0, false, "y"), (8, false, "y")] : List (Nat × Bool × String)).filter
            (fun e => decide (10 - e.1 ≤ 5) && (!e.2.1 && decide (e.2.2 = "y")))).length :=
  ⟨(failing_types_counts_within_window ⟨[(0, false, "y"), (8, false, "y")]⟩ 10 5 "y").1
      (8, false, "y") (by decide),
   (failing_types_counts_within_window ⟨[(0, false, "y"), (8, false, "y")]⟩ 10 5 "y").2.1⟩

/-- The executor's clamping setter always yields the clamped value (the
source's early return fires exactly when the clamp is a no-op). -/
theorem set_effective_max_eq (s : GovState) (v : Nat) :
    set_effective_max_concurrent s v
      = { s with effective_max := max 1 (min s.configured_max v) } := by
  simp only [set_effective_max_concurrent]
  split
  · next h => rw [h]
  · rfl

/-- C7: `_evaluate` applies its rules first-match-wins in the order pause,
throttle, recover.  With an error burst and no active pause, the state is
paused for the configured duration and a pause event is appended (and no
other field changes); otherwise, under resource pressure and no active
cooldown, `effective_max` is decremented by exactly 1 with floor 1 and a
cooldown of `window_s` starts (and no other field changes); otherwise only
the recover rule runs. -/
theorem evaluate_applies_rules_in_order
    (cfg : GovernanceConfig) (s : GovState) (x : Sample)
    (heff1 : 1 ≤ s.effective_max) (heffc : s.effective_max ≤ s.configured_max) :
    (cfg.pause_after_error_burst.threshold ≤ x.errors →
      pauseGuard s.pause_until x.ts = false →
      evalBranch cfg s x
        = { s with
            pause_until := some (x.ts + cfg.pause_after_error_burst.duration_s),
            pause_events := s.pause_events ++ [x.ts],
            exec_pause_until := some (x.ts + cfg.pause_after_error_burst.duration_s) })
    ∧ (x.errors < cfg.pause_after_error_burst.threshold →
      (cfg.cpu_high_pct ≤ cpuAvg s.samples ∨ cfg.mem_high_pct ≤ memAvg s.samples) →
      pauseGuard s.cooldown_until x.ts = false →
      evalBranch cfg s x
        = { s with effective_max := max 1 (s.effective_max - 1),
                   cooldown_until := some (x.ts + cfg.window_s) })
    ∧ (x.errors < cfg.pause_after_error_burst.threshold →
      cpuAvg s.samples < cfg.cpu_high_pct →
      memAvg s.samples < cfg.mem_high_pct →
      evalBranch cfg s x = attempt_recover cfg s x.ts) := by
  refine ⟨?_, ?_, ?_⟩
  · intro herr hnp
    rw [evalBranch, if_pos herr, trigger_pause, hnp]
    rfl
  · intro herr hres hnc
    rw [evalBranch, if_neg (Nat.not_le.mpr herr), if_pos hres, trigger_throttle, hnc]
    simp only [Bool.false_eq_true, if_false, set_effective_max_eq]
    have hclamp : max 1 (min s.configured_max (max 1 (s.effective_max - 1)))
        = max 1 (s.effective_max - 1) := by omega
    rw [hclamp]
  · intro herr hcpu hmem
    rw [evalBranch, if_neg (Nat.not_le.mpr herr),
      if_neg (not_or.mpr ⟨not_le.mpr hcpu, not_le.mpr hmem⟩)]

/-- Witness for C7: the three rule outcomes at concrete states. -/
theorem evaluate_rules_witness :
    evalBranch wCfg wGov wErrSample
      = { wGov with
          pause_until := some (wErrSample.ts + wCfg.pause_after_error_burst.duration_s),
          pause_events := wGov.pause_events ++ [wErrSample.ts],
          exec_pause_until := some (wErrSample.ts + wCfg.pause_after_error_burst.duration_s) }
    ∧ evalBranch wCfg wHotGov wCalmSample
      = { wHotGov with effective_max := max 1 (wHotGov.effective_max - 1),
                       cooldown_until := some (wCalmSample.ts + wCfg.window_s) }
    ∧ evalBranch wCfg wGov wCalmSample = attempt_recover wCfg wGov wCalmSample.ts :=
  ⟨(evaluate_applies_rules_in_order wCfg wGov wErrSample (by decide) (by decide)).1
      (by decide) (by decide),
   (evaluate_applies_rules_in_order wCfg wHotGov wCalmSample (by decide) (by decide)).2.1
      (by decide) (Or.inl (by norm_num [cpuAvg, wHotGov, wGov, wCfg])) (by decide),
   (evaluate_applies_rules_in_order wCfg wGov wCalmSample (by decide) (by decide)).2.2
      (by decide) (by norm_num [cpuAvg, wGov, wCfg]) (by norm_num [memAvg, wGov, wCfg])⟩

/-- C5 (code bug): when the escalation check of `_evaluate` fires (flag
armed and enough recorded pause events), `_escalate`'s very first action,
`self.escalation.enabled = False`, raises `FrozenInstanceError` because
`EscalationConfig` is a frozen dataclass — before the payload is built or
POSTed — and any tick whose `_sample_once` raises terminates the sampling
loop with that error, leaving the remaining ticks unprocessed.  The claimed
behaviour (POST once, disable for the run, keep sampling) is the documented
intent (`# avoid repeated escalations within run`) but not what the code
does. -/
theorem governance_escalation_raises_frozen_error
    (cfg : GovernanceConfig) (s : GovState) (x : Sample)
    (hen : (evalBranch cfg s x).escalation_enabled = true)
    (hcount : cfg.human_review_after_pause_bursts
        ≤ (evalBranch cfg s x).pause_events.length) :
    evaluate cfg s x = Except.error frozenInstanceError
    ∧ ∀ (t : GovState) (now : Nat) (cpu mem : ℚ)
        (rest : List (Nat × ℚ × ℚ)) (e : String),
        sample_once cfg t now cpu mem = Except.error e →
        runGov cfg t ((now, cpu, mem) :: rest) = Except.error e := by
  constructor
  · have hcond : ((evalBranch cfg s x).escalation_enabled
        && decide (cfg.human_review_after_pause_bursts
            ≤ (evalBranch cfg s x).pause_events.length)) = true := by
      rw [hen, decide_eq_true hcount]
      rfl
    simp only [evaluate, hcond, if_true]
    simp only [escalate, hen, Bool.not_true, Bool.false_eq_true, if_false]
  · intro t now cpu mem rest e he
    simp only [runGov, he]

/-- Witness for C5: a state with one fresh pause event, review bar 1, and an
error burst crashes the governance loop before the second tick. -/
theorem governance_escalation_frozen_witness :
    evaluate wCfg wEscGov wErrSample = Except.error frozenInstanceError
    ∧ runGov wCfg wEscGov ((4, 10, 10) :: wTicks)
        = Except.error frozenInstanceError :=
  ⟨(governance_escalation_raises_frozen_error wCfg wEscGov wErrSample
      (by decide) (by decide)).1,
   (governance_escalation_raises_frozen_error wCfg wEscGov wErrSample
      (by decide) (by decide)).2 wEscGov 4 10 10 wTicks frozenInstanceError
      (by rfl)⟩
end Sanaa
